import Mathlib

/-!
Verification of the Outline VPN API client (`outline_vpn/outline_vpn.py`).

The client issues HTTP requests and inspects the response's status code and
JSON body. We embed it shallowly: an HTTP response is a status code together
with an optional JSON body (`none` models a body that is not valid JSON, on
which `requests.Response.json()` raises). Each client method becomes a pure
function from the responses the server would produce to `Except PyErr α`,
where `PyErr` collects the exceptions the Python code can raise
(`OutlineServerErrorException` with its message, and the dynamic-typing
errors of the interpreter).
-/

/-- A JSON value, as produced by `requests.Response.json()`. Numbers are
modelled as integers (byte counts and ports in this API are integral). -/
inductive Json where
  | null : Json
  | bool (b : Bool) : Json
  | num (n : Int) : Json
  | str (s : String) : Json
  | arr (xs : List Json) : Json
  | obj (kvs : List (String × Json)) : Json

/-- The exceptions the Python code can raise: `OutlineServerErrorException`
with its message, the `CertificateMismatch` failure of the fingerprint
check, and the interpreter-level errors of dynamic field access
(`requests.exceptions.JSONDecodeError`, `TypeError`, `AttributeError`). -/
inductive PyErr where
  | serverError (msg : String) : PyErr
  | certificateMismatch : PyErr
  | jsonDecodeError : PyErr
  | typeError : PyErr
  | attributeError : PyErr

/-- An HTTP response as the client observes it: a status code and a body.
`body = none` models a body that is not parseable JSON, so that
`.json()` raises. -/
structure Response where
  status : Nat
  body : Option Json

/-- The `OutlineKey` dataclass. The Python dataclass is dynamically typed:
whatever JSON values the server sent are stored verbatim, the annotations
(`key_id: int` etc.) are not enforced. We therefore give every field type
`Json`. -/
structure OutlineKey where
  key_id : Json
  name : Json
  password : Json
  port : Json
  method : Json
  access_url : Json
  used_bytes : Json

/-- Explicit sequencing of fallible steps (the `Except` bind, written out so
that proofs can unfold it directly). -/
def bindE {α β : Type} (x : Except PyErr α) (f : α → Except PyErr β) : Except PyErr β :=
  match x with
  | .error e => .error e
  | .ok a => f a

/-- `response.json()`: returns the parsed body, raising
`JSONDecodeError` when the body is not valid JSON. -/
def jsonE (r : Response) : Except PyErr Json :=
  match r.body with
  | some j => .ok j
  | none => .error .jsonDecodeError

/-- Substring test on character lists (Python's `pat in s` for strings). -/
def charsMention (pat : List Char) : List Char → Bool
  | [] => pat.isEmpty
  | c :: rest => pat.isPrefixOf (c :: rest) || charsMention pat rest

/-- Python's `pat in s` on strings: `pat` occurs as a substring of `s`. -/
def strMentions (pat s : String) : Bool :=
  charsMention pat.data s.data

/-- Python's `k in j` on a parsed JSON value: key membership for a dict,
element equality for a list (a string `k` only equals string elements),
substring test for a string, and `TypeError` on the remaining types. -/
def pyContains (j : Json) (k : String) : Except PyErr Bool :=
  match j with
  | .obj kvs => .ok (kvs.any fun p => p.1 == k)
  | .arr xs => .ok (xs.any fun x => match x with | .str s => s == k | _ => false)
  | .str s => .ok (strMentions k s)
  | _ => .error .typeError

/-- Python's `j.get(k)` for a string key: on a dict, the value when present
and `None` when absent; on any other type, `AttributeError` (no `get`
attribute). -/
def dictGet (j : Json) (k : String) : Except PyErr Json :=
  match j with
  | .obj kvs => .ok ((kvs.lookup k).getD .null)
  | _ => .error .attributeError

/-- Python's `j.get(k)` where the key is itself a JSON value: a dict parsed
from JSON has only string keys, so a non-string hashable key looks up
nothing and yields `None`, while an unhashable key (list or dict) raises
`TypeError`; calling `.get` on a non-dict raises `AttributeError`. -/
def dictGetJ (j : Json) (k : Json) : Except PyErr Json :=
  match j with
  | .obj kvs =>
    match k with
    | .str s => .ok ((kvs.lookup s).getD .null)
    | .arr _ => .error .typeError
    | .obj _ => .error .typeError
    | _ => .ok .null
  | _ => .error .attributeError

/-- Python's `for x in j`: elements of a list, keys of a dict, characters of
a string, `TypeError` otherwise. -/
def asList : Json → Except PyErr (List Json)
  | .arr xs => .ok xs
  | .obj kvs => .ok (kvs.map fun p => Json.str p.1)
  | .str s => .ok (s.data.map fun c => Json.str (String.mk [c]))
  | _ => .error .typeError

/-- Python truthiness of an optional string argument (`if cert_sha256:`,
`if key_name:`): `None` and the empty string are falsy. -/
def truthyStr : Option String → Bool
  | none => false
  | some s => s != ""

/-- Whether a JSON value is hashable as a Python object (lists and dicts
are not). -/
def hashableJson : Json → Bool
  | .arr _ => false
  | .obj _ => false
  | _ => true

/-- A well-formed entry of the `accessKeys` array: a JSON object whose
`id` value (present or not) is hashable. -/
def entryOkB : Json → Bool
  | .obj ekvs => hashableJson ((ekvs.lookup "id").getD .null)
  | _ => false

/-- Character-wise lowercase of a string (used for the spec's
case-insensitive fingerprint comparison). -/
def lowerStr (s : String) : String :=
  String.mk (s.data.map Char.toLower)

/-- Modelled from the spec: `check_ssl_fingerprint` is imported from
`outline_vpn/utils.py`, which is not among the provided sources. Per the
spec it makes a one-time TLS connection to the base URL's host, obtains the
fingerprint of the certificate the server presents (passed in here as
`presented`, the environment's contribution), and fails with a
`CertificateMismatch` error exactly when that fingerprint differs from the
expected `cert_sha256` under case-insensitive comparison. -/
def check_ssl_fingerprint (api_url : String) (cert_sha256 : String) (presented : String) :
    Except PyErr Unit :=
  if lowerStr presented == lowerStr cert_sha256 then .ok () else .error .certificateMismatch

/-- The `OutlineVPN` object: after construction it holds only the base URL. -/
structure OutlineVPN where
  api_url : String

/-- `OutlineVPN.__init__`: stores the base URL and, only when a certificate
fingerprint is supplied (truthy), runs the one-time fingerprint check; a
mismatch makes construction fail. `presented` is the fingerprint of the
certificate the server would present during that check. -/
def OutlineVPN.init (api_url : String) (cert_sha256 : Option String) (presented : String) :
    Except PyErr OutlineVPN :=
  if truthyStr cert_sha256 then
    bindE (check_ssl_fingerprint api_url (cert_sha256.getD "") presented) fun _ =>
      .ok ⟨api_url⟩
  else .ok ⟨api_url⟩

/-- `rename_key`: PUT the new name, report whether the status was 204. -/
def rename_key (key_id : Json) (name : String) (r : Response) : Except PyErr Bool :=
  .ok (r.status == 204)

/-- One iteration of the `get_keys` result loop: build an `OutlineKey` from
one entry of the `accessKeys` array, joining in `used_bytes` from the
metrics body `mj` via `bytesTransferredByUserId` keyed by the entry's
`id`. Field accesses follow the Python evaluation order. -/
def buildKey (mj : Json) (key : Json) : Except PyErr OutlineKey :=
  bindE (dictGet key "id") fun i =>
  bindE (dictGet key "name") fun n =>
  bindE (dictGet key "password") fun p =>
  bindE (dictGet key "port") fun po =>
  bindE (dictGet key "method") fun me =>
  bindE (dictGet key "accessUrl") fun a =>
  bindE (dictGet mj "bytesTransferredByUserId") fun bt =>
  bindE (dictGetJ bt i) fun ub =>
  .ok ⟨i, n, p, po, me, a, ub⟩

/-- The `get_keys` result loop over the entries of the `accessKeys` array. -/
def buildKeys (mj : Json) : List Json → Except PyErr (List OutlineKey)
  | [] => .ok []
  | e :: rest =>
    bindE (buildKey mj e) fun k =>
    bindE (buildKeys mj rest) fun ks =>
    .ok (k :: ks)

/-- `get_keys`: given the response `rk` to `GET /access-keys/` and the
response `rm` to `GET /metrics/transfer` (the latter is only requested when
the first check passes), produce the key list or raise. Mirrors the Python
short-circuit structure: the keys body is only parsed when the status is
200, the metrics body only when the metrics status is below 400. -/
def get_keys (rk rm : Response) : Except PyErr (List OutlineKey) :=
  bindE
    (if rk.status == 200 then
      bindE (jsonE rk) fun j => pyContains j "accessKeys"
    else .ok false) fun cond =>
  if cond then
    if 400 ≤ rm.status then .error (.serverError "Unable to get metrics")
    else
      bindE (jsonE rm) fun mj =>
      bindE (pyContains mj "bytesTransferredByUserId") fun c2 =>
      if !c2 then .error (.serverError "Unable to get metrics")
      else
        bindE (jsonE rk) fun j =>
        bindE (dictGet j "accessKeys") fun av =>
        bindE (asList av) fun entries =>
        buildKeys mj entries
  else .error (.serverError "Unable to retrieve keys")

/-- `create_key`: given the response `r` to `POST /access-keys/`, the
optional requested display name, and the response `renameResp` the server
would give to the follow-up rename request (issued only when a truthy name
was requested), produce the new key or raise. `used_bytes` is the literal
`0`; when the rename reports success the returned record's name is replaced
by the requested name, otherwise the record is returned unchanged. -/
def create_key (r : Response) (key_name : Option String) (renameResp : Response) :
    Except PyErr OutlineKey :=
  if r.status == 201 then
    bindE (jsonE r) fun key =>
    bindE (dictGet key "id") fun i =>
    bindE (dictGet key "name") fun n =>
    bindE (dictGet key "password") fun p =>
    bindE (dictGet key "port") fun po =>
    bindE (dictGet key "method") fun me =>
    bindE (dictGet key "accessUrl") fun a =>
    match key_name with
    | some nm =>
      if nm ≠ "" then
        bindE (rename_key i nm renameResp) fun ok =>
        if ok then .ok ⟨i, Json.str nm, p, po, me, a, Json.num 0⟩
        else .ok ⟨i, n, p, po, me, a, Json.num 0⟩
      else .ok ⟨i, n, p, po, me, a, Json.num 0⟩
    | none => .ok ⟨i, n, p, po, me, a, Json.num 0⟩
  else .error (.serverError "Unable to create key")

/-- `delete_key`: DELETE the key, report whether the status was 204. -/
def delete_key (key_id : Json) (r : Response) : Except PyErr Bool :=
  .ok (r.status == 204)

/-- `add_data_limit`: PUT the per-key data limit, report whether the status
was 204. -/
def add_data_limit (key_id : Json) (limit_bytes : Int) (r : Response) : Except PyErr Bool :=
  .ok (r.status == 204)

/-- `delete_data_limit`: DELETE the per-key data limit, report whether the
status was 204. -/
def delete_data_limit (key_id : Json) (r : Response) : Except PyErr Bool :=
  .ok (r.status == 204)

/-- `get_transferred_data`: raise unless the status is below 400 and the
body contains `bytesTransferredByUserId`; otherwise return the parsed
body. The status is tested first (Python's `or` short-circuits), so the
body is not parsed on a status of 400 or above. -/
def get_transferred_data (r : Response) : Except PyErr Json :=
  if 400 ≤ r.status then .error (.serverError "Unable to get metrics")
  else
    bindE (jsonE r) fun j =>
    bindE (pyContains j "bytesTransferredByUserId") fun c =>
    if !c then .error (.serverError "Unable to get metrics")
    else jsonE r

/-- `set_server_name`: PUT the server name, report whether the status was
204. -/
def set_server_name (name : String) (r : Response) : Except PyErr Bool :=
  .ok (r.status == 204)

/-- `set_hostname`: PUT the hostname for access keys, report whether the
status was 204. -/
def set_hostname (hostname : String) (r : Response) : Except PyErr Bool :=
  .ok (r.status == 204)

/-- `get_metrics_status`: return `response.json().get("metricsEnabled")`
with no status check and no explicit error path. -/
def get_metrics_status (r : Response) : Except PyErr Json :=
  bindE (jsonE r) fun j => dictGet j "metricsEnabled"

/-- `set_metrics_status`: PUT the metrics flag, report whether the status
was 204. -/
def set_metrics_status (status : Bool) (r : Response) : Except PyErr Bool :=
  .ok (r.status == 204)

/-- `set_port_new_for_access_keys`: raise a descriptive
`OutlineServerErrorException` on status 400 or 409, and otherwise report
whether the status was 204. -/
def set_port_new_for_access_keys (port : Int) (r : Response) : Except PyErr Bool :=
  if r.status == 400 then
    .error (.serverError
      "The requested port wasn\x27t an integer from 1 through 65535, or the request had no port parameter.")
  else if r.status == 409 then
    .error (.serverError "The requested port was already in use by another service.")
  else .ok (r.status == 204)

/-- `set_data_limit_for_all_keys`: PUT the global data limit, report whether
the status was 204. -/
def set_data_limit_for_all_keys (limit_bytes : Int) (r : Response) : Except PyErr Bool :=
  .ok (r.status == 204)

/-- `delete_data_limit_for_all_keys`: DELETE the global data limit, report
whether the status was 204. -/
def delete_data_limit_for_all_keys (r : Response) : Except PyErr Bool :=
  .ok (r.status == 204)

/-- The transferred-bytes value joined in for an `id` value: a string id is
looked up in the metrics mapping (`None`, i.e. `null`, when missing), and a
non-string hashable id finds nothing in a string-keyed dict. This is the
pure image of `dictGetJ` on a dict argument. -/
def lookupIdBytes (m : List (String × Json)) : Json → Json
  | .str s => (m.lookup s).getD .null
  | _ => .null

/-- The `OutlineKey` that `get_keys` builds from one well-formed entry of
the `accessKeys` array, given the metrics mapping `m`: every field is the
entry's verbatim JSON value (`null` when absent), and `used_bytes` is the
join of the entry's `id` into `m`. -/
def joinedKey (m : List (String × Json)) : Json → OutlineKey
  | .obj ekvs =>
    { key_id := (ekvs.lookup "id").getD .null
      name := (ekvs.lookup "name").getD .null
      password := (ekvs.lookup "password").getD .null
      port := (ekvs.lookup "port").getD .null
      method := (ekvs.lookup "method").getD .null
      access_url := (ekvs.lookup "accessUrl").getD .null
      used_bytes := lookupIdBytes m ((ekvs.lookup "id").getD .null) }
  | _ => ⟨.null, .null, .null, .null, .null, .null, .null⟩

theorem bindE_eq_ok {α β : Type} (x : Except PyErr α) (f : α → Except PyErr β) (b : β) :
    bindE x f = .ok b ↔ ∃ a, x = .ok a ∧ f a = .ok b := by
  cases x <;> simp [bindE]

theorem bindE_notSrv {α β : Type} {x : Except PyErr α} {f : α → Except PyErr β}
    (hx : ∀ s, x ≠ .error (.serverError s))
    (hf : ∀ a s, f a ≠ .error (.serverError s)) :
    ∀ s, bindE x f ≠ .error (.serverError s) := by
  intro s h
  cases hx' : x with
  | error e =>
    rw [hx'] at h
    simp only [bindE, Except.error.injEq] at h
    rw [h] at hx'
    exact hx s hx'
  | ok a =>
    rw [hx'] at h
    simp only [bindE] at h
    exact hf a s h

theorem jsonE_notSrv (r : Response) : ∀ s, jsonE r ≠ .error (.serverError s) := by
  intro s
  cases h : r.body <;> simp [jsonE, h]

theorem dictGet_notSrv (j : Json) (k : String) : ∀ s, dictGet j k ≠ .error (.serverError s) := by
  intro s
  cases j <;> simp [dictGet]

theorem dictGetJ_notSrv (j k : Json) : ∀ s, dictGetJ j k ≠ .error (.serverError s) := by
  intro s
  cases j <;> cases k <;> simp [dictGetJ]

theorem asList_notSrv (j : Json) : ∀ s, asList j ≠ .error (.serverError s) := by
  intro s
  cases j <;> simp [asList]

theorem pyContains_notSrv (j : Json) (k : String) :
    ∀ s, pyContains j k ≠ .error (.serverError s) := by
  intro s
  cases j <;> simp [pyContains]

theorem buildKey_notSrv (mj e : Json) : ∀ s, buildKey mj e ≠ .error (.serverError s) := by
  unfold buildKey
  refine bindE_notSrv (dictGet_notSrv e "id") fun i => ?_
  refine bindE_notSrv (dictGet_notSrv e "name") fun n => ?_
  refine bindE_notSrv (dictGet_notSrv e "password") fun p => ?_
  refine bindE_notSrv (dictGet_notSrv e "port") fun po => ?_
  refine bindE_notSrv (dictGet_notSrv e "method") fun me => ?_
  refine bindE_notSrv (dictGet_notSrv e "accessUrl") fun a => ?_
  refine bindE_notSrv (dictGet_notSrv mj "bytesTransferredByUserId") fun bt => ?_
  refine bindE_notSrv (dictGetJ_notSrv bt i) fun ub => ?_
  intro s h
  exact Except.noConfusion h

theorem buildKeys_notSrv (mj : Json) (entries : List Json) :
    ∀ s, buildKeys mj entries ≠ .error (.serverError s) := by
  induction entries with
  | nil => intro s h; exact Except.noConfusion h
  | cons e rest ih =>
    unfold buildKeys
    refine bindE_notSrv (buildKey_notSrv mj e) fun k => ?_
    refine bindE_notSrv ih fun ks => ?_
    intro s h
    exact Except.noConfusion h

theorem anyKey_eq_isSome (l : List (String × Json)) (k : String) :
    (l.any fun p => p.1 == k) = (l.lookup k).isSome := by
  induction l with
  | nil => rfl
  | cons p t ih =>
    obtain ⟨a, b⟩ := p
    by_cases h : a = k
    · subst h
      simp [List.lookup]
    · have h1 : (a == k) = false := beq_eq_false_iff_ne.mpr h
      have h2 : (k == a) = false := beq_eq_false_iff_ne.mpr (Ne.symm h)
      simp [List.lookup, h1, h2, ih]

theorem buildKey_obj_ok (mkvs m : List (String × Json)) (ekvs : List (String × Json))
    (hm : mkvs.lookup "bytesTransferredByUserId" = some (.obj m))
    (he : entryOkB (.obj ekvs) = true) :
    buildKey (.obj mkvs) (.obj ekvs) = .ok (joinedKey m (.obj ekvs)) := by
  simp only [buildKey, dictGet, bindE, hm, dictGetJ, joinedKey]
  cases hi : (ekvs.lookup "id").getD .null <;>
    simp [entryOkB, hashableJson, hi] at he ⊢ <;>
    simp [lookupIdBytes]

theorem buildKeys_obj_ok (mkvs m : List (String × Json))
    (hm : mkvs.lookup "bytesTransferredByUserId" = some (.obj m)) :
    ∀ entries : List Json, (∀ e ∈ entries, entryOkB e = true) →
    buildKeys (.obj mkvs) entries = .ok (entries.map (joinedKey m)) := by
  intro entries h
  induction entries with
  | nil => rfl
  | cons e rest ih =>
    have he : entryOkB e = true := h e (List.mem_cons_self e rest)
    obtain ⟨ekvs, rfl⟩ : ∃ ekvs, e = .obj ekvs := by
      cases e <;> simp [entryOkB] at he ⊢
    have hrest := ih fun x hx => h x (List.mem_cons_of_mem _ hx)
    simp [buildKeys, bindE, buildKey_obj_ok mkvs m ekvs hm he, hrest]

theorem srvError_ne {α : Type} {a b : String} (hab : a ≠ b) :
    (Except.error (PyErr.serverError a) : Except PyErr α) ≠ .error (.serverError b) := by
  intro h
  apply hab
  injection h with h1
  injection h1

/-- C1: a successful list-keys call returns one `OutlineKey` per entry of
the `accessKeys` array, each entry's fields taken verbatim and its
`used_bytes` joined in from the metrics mapping by the entry's `id`; an
identifier missing from the mapping yields an absent (`null`) value, as
`joinedKey` records. -/
theorem get_keys_joins_metrics (rk rm : Response) (kkvs mkvs m : List (String × Json))
    (entries : List Json)
    (h1 : rk.status = 200) (h2 : rk.body = some (.obj kkvs))
    (h3 : kkvs.lookup "accessKeys" = some (.arr entries))
    (h4 : rm.status < 400) (h5 : rm.body = some (.obj mkvs))
    (h6 : mkvs.lookup "bytesTransferredByUserId" = some (.obj m))
    (h7 : ∀ e ∈ entries, entryOkB e = true) :
    get_keys rk rm = .ok (entries.map (joinedKey m)) := by
  have hjk : jsonE rk = .ok (.obj kkvs) := by simp [jsonE, h2]
  have hjm : jsonE rm = .ok (.obj mkvs) := by simp [jsonE, h5]
  have hnot400 : ¬ 400 ≤ rm.status := by omega
  have hcond : (if rk.status == 200 then bindE (jsonE rk) fun j => pyContains j "accessKeys"
      else .ok false) = .ok true := by
    simp [h1, hjk, bindE, pyContains, anyKey_eq_isSome, h3]
  rw [get_keys, hcond]
  simp [bindE, hnot400, hjm, pyContains, anyKey_eq_isSome, h6, hjk, dictGet, h3, asList,
    buildKeys_obj_ok mkvs m h6 entries h7]

/-- C1 witness: the spec's concrete example — one key of id `"1"`, metrics
mapping `"1"` to 1000 — yields one `OutlineKey` with id `"1"` and
`used_bytes` 1000. -/
theorem get_keys_joins_metrics_example :
    get_keys
      ⟨200, some (.obj [("accessKeys", .arr [.obj [("id", .str "1"), ("name", .str "a"),
        ("password", .str "p"), ("port", .num 8388), ("method", .str "aes-128-gcm"),
        ("accessUrl", .str "ss://example")]])])⟩
      ⟨200, some (.obj [("bytesTransferredByUserId", .obj [("1", .num 1000)])])⟩ =
    .ok [⟨.str "1", .str "a", .str "p", .num 8388, .str "aes-128-gcm", .str "ss://example",
      .num 1000⟩] := by
  have h := get_keys_joins_metrics
    ⟨200, some (.obj [("accessKeys", .arr [.obj [("id", .str "1"), ("name", .str "a"),
      ("password", .str "p"), ("port", .num 8388), ("method", .str "aes-128-gcm"),
      ("accessUrl", .str "ss://example")]])])⟩
    ⟨200, some (.obj [("bytesTransferredByUserId", .obj [("1", .num 1000)])])⟩
    [("accessKeys", .arr [.obj [("id", .str "1"), ("name", .str "a"),
      ("password", .str "p"), ("port", .num 8388), ("method", .str "aes-128-gcm"),
      ("accessUrl", .str "ss://example")]])]
    [("bytesTransferredByUserId", .obj [("1", .num 1000)])]
    [("1", .num 1000)]
    [.obj [("id", .str "1"), ("name", .str "a"), ("password", .str "p"),
      ("port", .num 8388), ("method", .str "aes-128-gcm"), ("accessUrl", .str "ss://example")]]
    rfl rfl rfl (by decide) rfl rfl (by decide)
  exact h

/-- C2: with both bodies parsing as JSON objects, list-keys raises
`OutlineServerErrorException("Unable to retrieve keys")` exactly when the
access-keys response has a status other than 200 or its body lacks the
`accessKeys` field, and raises
`OutlineServerErrorException("Unable to get metrics")` exactly when the
access-keys check passed but the metrics response has status 400 or above
or its body lacks `bytesTransferredByUserId` — in particular the metrics
error occurs even though the keys endpoint succeeded. -/
theorem get_keys_error_classification (rk rm : Response) (kkvs mkvs : List (String × Json))
    (hk : rk.body = some (.obj kkvs)) (hm : rm.body = some (.obj mkvs)) :
    (get_keys rk rm = .error (.serverError "Unable to retrieve keys") ↔
      (rk.status ≠ 200 ∨ kkvs.lookup "accessKeys" = none)) ∧
    (get_keys rk rm = .error (.serverError "Unable to get metrics") ↔
      (rk.status = 200 ∧ (kkvs.lookup "accessKeys").isSome = true ∧
        (400 ≤ rm.status ∨ mkvs.lookup "bytesTransferredByUserId" = none))) := by
  have hjk : jsonE rk = .ok (.obj kkvs) := by simp [jsonE, hk]
  have hjm : jsonE rm = .ok (.obj mkvs) := by simp [jsonE, hm]
  have hne : ("Unable to retrieve keys" : String) ≠ "Unable to get metrics" := by decide
  by_cases h200 : rk.status = 200
  · have hb : (rk.status == 200) = true := by simp [h200]
    cases hl : kkvs.lookup "accessKeys" with
    | none =>
      have hres : get_keys rk rm = .error (.serverError "Unable to retrieve keys") := by
        simp [get_keys, hb, hjk, bindE, pyContains, anyKey_eq_isSome, hl]
      rw [hres]
      constructor
      · exact iff_of_true rfl (Or.inr rfl)
      · refine iff_of_false (srvError_ne hne) fun h => ?_
        simp at h
    | some av =>
      have hcond : (if rk.status == 200 then bindE (jsonE rk) fun j => pyContains j "accessKeys"
          else .ok false) = .ok true := by
        simp [hb, hjk, bindE, pyContains, anyKey_eq_isSome, hl]
      by_cases h400 : 400 ≤ rm.status
      · have hres : get_keys rk rm = .error (.serverError "Unable to get metrics") := by
          rw [get_keys, hcond]
          simp [bindE, h400]
        rw [hres]
        constructor
        · refine iff_of_false (srvError_ne hne.symm) fun h => ?_
          rcases h with h | h
          · exact h h200
          · exact Option.noConfusion h
        · exact iff_of_true rfl ⟨h200, rfl, Or.inl h400⟩
      · cases hl2 : mkvs.lookup "bytesTransferredByUserId" with
        | none =>
          have hres : get_keys rk rm = .error (.serverError "Unable to get metrics") := by
            rw [get_keys, hcond]
            simp [bindE, h400, hjm, pyContains, anyKey_eq_isSome, hl2]
          rw [hres]
          constructor
          · refine iff_of_false (srvError_ne hne.symm) fun h => ?_
            rcases h with h | h
            · exact h h200
            · exact Option.noConfusion h
          · exact iff_of_true rfl ⟨h200, rfl, Or.inr rfl⟩
        | some mv =>
          have hres : get_keys rk rm =
              bindE (asList av) fun entries => buildKeys (.obj mkvs) entries := by
            rw [get_keys, hcond]
            simp [bindE, h400, hjm, pyContains, anyKey_eq_isSome, hl2, hjk, dictGet, hl]
          have hnot : ∀ s, get_keys rk rm ≠ .error (.serverError s) := by
            rw [hres]
            exact bindE_notSrv (asList_notSrv av) fun entries => buildKeys_notSrv _ entries
          constructor
          · refine iff_of_false (hnot _) fun h => ?_
            rcases h with h | h
            · exact h h200
            · exact Option.noConfusion h
          · refine iff_of_false (hnot _) fun h => ?_
            rcases h.2.2 with h' | h'
            · exact h400 h'
            · exact Option.noConfusion h'
  · have hb : (rk.status == 200) = false := by simp [h200]
    have hres : get_keys rk rm = .error (.serverError "Unable to retrieve keys") := by
      simp [get_keys, hb, bindE]
    rw [hres]
    constructor
    · exact iff_of_true rfl (Or.inl h200)
    · exact iff_of_false (srvError_ne hne) fun h => h200 h.1

/-- C2 witness: concrete instances of the classification — a 404 keys
response raises the keys error, and a 200 keys response with a well-formed
body but a 500 metrics response raises the metrics error. -/
theorem get_keys_error_classification_check :
    get_keys ⟨404, some (.obj [])⟩ ⟨200, some (.obj [])⟩ =
      .error (.serverError "Unable to retrieve keys") ∧
    get_keys ⟨200, some (.obj [("accessKeys", .arr [])])⟩ ⟨500, some (.obj [])⟩ =
      .error (.serverError "Unable to get metrics") := by
  constructor
  · exact (get_keys_error_classification ⟨404, some (.obj [])⟩ ⟨200, some (.obj [])⟩
      [] [] rfl rfl).1.mpr (Or.inl (by decide))
  · exact (get_keys_error_classification ⟨200, some (.obj [("accessKeys", .arr [])])⟩
      ⟨500, some (.obj [])⟩ [("accessKeys", .arr [])] [] rfl rfl).2.mpr
      ⟨rfl, rfl, Or.inl (by decide)⟩

/-- C3: every successful create-key call returns a record with
`used_bytes = 0` — the model of `create_key` takes no metrics response at
all, so this holds for every possible state of the remote metrics
endpoint — and any non-201 status raises
`OutlineServerErrorException("Unable to create key")`. -/
theorem create_key_zero_used_bytes (r : Response) (key_name : Option String)
    (renameResp : Response) :
    (∀ k, create_key r key_name renameResp = .ok k → k.used_bytes = Json.num 0) ∧
    (r.status ≠ 201 →
      create_key r key_name renameResp = .error (.serverError "Unable to create key")) := by
  constructor
  · intro k h
    by_cases h201 : r.status = 201
    · have hb : (r.status == 201) = true := by simp [h201]
      cases hbody : r.body with
      | none => simp [create_key, hb, jsonE, hbody, bindE] at h
      | some j =>
        cases j with
        | null => simp [create_key, hb, jsonE, hbody, bindE, dictGet] at h
        | bool b => simp [create_key, hb, jsonE, hbody, bindE, dictGet] at h
        | num n => simp [create_key, hb, jsonE, hbody, bindE, dictGet] at h
        | str s => simp [create_key, hb, jsonE, hbody, bindE, dictGet] at h
        | arr xs => simp [create_key, hb, jsonE, hbody, bindE, dictGet] at h
        | obj kvs =>
          cases key_name with
          | none =>
            simp [create_key, hb, jsonE, hbody, bindE, dictGet] at h
            subst h
            rfl
          | some nm =>
            by_cases hnm : nm = ""
            · simp [create_key, hb, jsonE, hbody, bindE, dictGet, hnm] at h
              subst h
              rfl
            · cases hrn : (renameResp.status == 204) with
              | true =>
                simp [create_key, hb, jsonE, hbody, bindE, dictGet, rename_key, hnm, hrn] at h
                subst h
                rfl
              | false =>
                simp [create_key, hb, jsonE, hbody, bindE, dictGet, rename_key, hnm, hrn] at h
                subst h
                rfl
    · have hb : (r.status == 201) = false := by simp [h201]
      simp [create_key, hb] at h
  · intro hne
    have hb : (r.status == 201) = false := by simp [hne]
    simp [create_key, hb]

/-- C3 witness: a 201 response with an empty JSON object yields a key with
`used_bytes = 0`, and a 500 response raises the create-key error. -/
theorem create_key_zero_used_bytes_check :
    OutlineKey.used_bytes ⟨.null, .null, .null, .null, .null, .null, .num 0⟩ = Json.num 0 ∧
    create_key ⟨500, none⟩ none ⟨0, none⟩ = .error (.serverError "Unable to create key") :=
  ⟨(create_key_zero_used_bytes ⟨201, some (.obj [])⟩ none ⟨0, none⟩).1
      ⟨.null, .null, .null, .null, .null, .null, .num 0⟩ rfl,
   (create_key_zero_used_bytes ⟨500, none⟩ none ⟨0, none⟩).2 (by decide)⟩

/-- C4: on a successful creation with a requested (truthy) display name,
the returned record is exactly the server's verbatim record with
`used_bytes = 0`, except that the name is the requested name precisely when
the follow-up rename response had status 204 and the server-assigned name
otherwise; no other field depends on the rename outcome and the rename
failure raises nothing. -/
theorem create_key_rename_outcome (r rn : Response) (kvs : List (String × Json)) (nm : String)
    (h1 : r.status = 201) (h2 : r.body = some (.obj kvs)) (h3 : nm ≠ "") :
    create_key r (some nm) rn = .ok ⟨(kvs.lookup "id").getD .null,
      (if rn.status = 204 then Json.str nm else (kvs.lookup "name").getD .null),
      (kvs.lookup "password").getD .null, (kvs.lookup "port").getD .null,
      (kvs.lookup "method").getD .null, (kvs.lookup "accessUrl").getD .null, Json.num 0⟩ := by
  have hb : (r.status == 201) = true := by simp [h1]
  by_cases h204 : rn.status = 204
  · have hr : (rn.status == 204) = true := by simp [h204]
    simp [create_key, hb, jsonE, h2, bindE, dictGet, h3, rename_key, hr, h204]
  · have hr : (rn.status == 204) = false := by simp [h204]
    simp [create_key, hb, jsonE, h2, bindE, dictGet, h3, rename_key, hr, h204]

/-- C4 witness: with server-assigned name `"default"` and requested name
`"alice"`, a 204 rename response yields name `"alice"` and a 500 rename
response yields name `"default"`, all other fields identical. -/
theorem create_key_rename_outcome_check :
    create_key ⟨201, some (.obj [("name", .str "default")])⟩ (some "alice") ⟨204, none⟩ =
      .ok ⟨.null, .str "alice", .null, .null, .null, .null, .num 0⟩ ∧
    create_key ⟨201, some (.obj [("name", .str "default")])⟩ (some "alice") ⟨500, none⟩ =
      .ok ⟨.null, .str "default", .null, .null, .null, .null, .num 0⟩ := by
  constructor
  · have h := create_key_rename_outcome ⟨201, some (.obj [("name", .str "default")])⟩
      ⟨204, none⟩ [("name", .str "default")] "alice" rfl rfl (by decide)
    simpa using h
  · have h := create_key_rename_outcome ⟨201, some (.obj [("name", .str "default")])⟩
      ⟨500, none⟩ [("name", .str "default")] "alice" rfl rfl (by decide)
    simpa using h

/-- C5: set-default-port raises an `OutlineServerErrorException` whose
message mentions the valid range `1 through 65535` on status 400, raises
one whose message mentions the port being in use on status 409, returns
`true` exactly on status 204, and returns `false` on every other status. -/
theorem set_port_status_mapping (port : Int) (r : Response) :
    (r.status = 400 → set_port_new_for_access_keys port r =
        .error (.serverError
          "The requested port wasn\x27t an integer from 1 through 65535, or the request had no port parameter.") ∧
      strMentions "1 through 65535"
        "The requested port wasn\x27t an integer from 1 through 65535, or the request had no port parameter." = true) ∧
    (r.status = 409 → set_port_new_for_access_keys port r =
        .error (.serverError "The requested port was already in use by another service.") ∧
      strMentions "in use" "The requested port was already in use by another service." = true) ∧
    (set_port_new_for_access_keys port r = .ok true ↔ r.status = 204) ∧
    (r.status ≠ 400 → r.status ≠ 409 → r.status ≠ 204 →
      set_port_new_for_access_keys port r = .ok false) := by
  refine ⟨fun h => ⟨?_, ?_⟩, fun h => ⟨?_, ?_⟩, ⟨?_, ?_⟩, fun h1 h2 h3 => ?_⟩
  · simp [set_port_new_for_access_keys, h]
  · decide
  · simp [set_port_new_for_access_keys, h]
  · decide
  · intro h
    by_cases h4 : r.status = 400
    · simp [set_port_new_for_access_keys, h4] at h
    · by_cases h9 : r.status = 409
      · simp [set_port_new_for_access_keys, h4, h9] at h
      · simp [set_port_new_for_access_keys, h4, h9] at h
        exact h
  · intro h
    simp [set_port_new_for_access_keys, h]
  · simp [set_port_new_for_access_keys, h1, h2, h3]

/-- C5 witness: the mapping at the concrete statuses 400, 409, 204 and
500. -/
theorem set_port_status_mapping_check :
    (set_port_new_for_access_keys 1234 ⟨400, none⟩ =
        .error (.serverError
          "The requested port wasn\x27t an integer from 1 through 65535, or the request had no port parameter.") ∧
      strMentions "1 through 65535"
        "The requested port wasn\x27t an integer from 1 through 65535, or the request had no port parameter." = true) ∧
    (set_port_new_for_access_keys 1234 ⟨409, none⟩ =
        .error (.serverError "The requested port was already in use by another service.") ∧
      strMentions "in use" "The requested port was already in use by another service." = true) ∧
    set_port_new_for_access_keys 1234 ⟨204, none⟩ = .ok true ∧
    set_port_new_for_access_keys 1234 ⟨500, none⟩ = .ok false :=
  ⟨(set_port_status_mapping 1234 ⟨400, none⟩).1 rfl,
   (set_port_status_mapping 1234 ⟨409, none⟩).2.1 rfl,
   (set_port_status_mapping 1234 ⟨204, none⟩).2.2.1.mpr rfl,
   (set_port_status_mapping 1234 ⟨500, none⟩).2.2.2 (by decide) (by decide) (by decide)⟩

/-- C6: every boolean-returning mutating operation returns `.ok` of the
test `status == 204` — so it returns `true` exactly on status 204, `false`
on any other status, and never raises — and `status == 204` is
propositionally the equality with 204. -/
theorem boolean_ops_status_204 (key_id : Json) (limit_bytes : Int) (name hostname : String)
    (status : Bool) (r : Response) :
    delete_key key_id r = .ok (r.status == 204) ∧
    rename_key key_id name r = .ok (r.status == 204) ∧
    add_data_limit key_id limit_bytes r = .ok (r.status == 204) ∧
    delete_data_limit key_id r = .ok (r.status == 204) ∧
    set_server_name name r = .ok (r.status == 204) ∧
    set_hostname hostname r = .ok (r.status == 204) ∧
    set_metrics_status status r = .ok (r.status == 204) ∧
    set_data_limit_for_all_keys limit_bytes r = .ok (r.status == 204) ∧
    delete_data_limit_for_all_keys r = .ok (r.status == 204) ∧
    ((r.status == 204) = true ↔ r.status = 204) :=
  ⟨rfl, rfl, rfl, rfl, rfl, rfl, rfl, rfl, rfl, beq_iff_eq⟩

/-- C7: constructing the client with a supplied (truthy) expected
fingerprint fails with `CertificateMismatch` when the fingerprint of the
certificate the server presents differs (case-insensitively) from the
expected one — so no usable client, and hence no management call, can
result — succeeds when they agree, and performs no check at all when no
fingerprint is supplied. -/
theorem init_fingerprint_check (url cert presented : String) :
    (cert ≠ "" → lowerStr presented ≠ lowerStr cert →
      OutlineVPN.init url (some cert) presented = .error .certificateMismatch) ∧
    (cert ≠ "" → lowerStr presented = lowerStr cert →
      OutlineVPN.init url (some cert) presented = .ok ⟨url⟩) ∧
    OutlineVPN.init url none presented = .ok ⟨url⟩ := by
  refine ⟨fun h1 h2 => ?_, fun h1 h2 => ?_, ?_⟩
  · have ht : truthyStr (some cert) = true := by simp [truthyStr, h1]
    have hb : (lowerStr presented == lowerStr cert) = false := by simp [h2]
    simp [OutlineVPN.init, ht, check_ssl_fingerprint, bindE, hb]
  · have ht : truthyStr (some cert) = true := by simp [truthyStr, h1]
    have hb : (lowerStr presented == lowerStr cert) = true := by simp [h2]
    simp [OutlineVPN.init, ht, check_ssl_fingerprint, bindE, hb]
  · simp [OutlineVPN.init, truthyStr]

/-- C7 witness: a wrong expected fingerprint fails construction with
`CertificateMismatch`, and construction without a fingerprint performs no
check. -/
theorem init_fingerprint_check_instance :
    OutlineVPN.init "https://vpn.example:443/SecretPath" (some "AAAA") "BBBB" =
      .error .certificateMismatch ∧
    OutlineVPN.init "https://vpn.example:443/SecretPath" none "BBBB" =
      .ok ⟨"https://vpn.example:443/SecretPath"⟩ :=
  ⟨(init_fingerprint_check "https://vpn.example:443/SecretPath" "AAAA" "BBBB").1
      (by decide) (by decide),
   (init_fingerprint_check "https://vpn.example:443/SecretPath" "AAAA" "BBBB").2.2⟩

/-- C8 counterexample: on status 204 — not 200 — with a body containing
`bytesTransferredByUserId`, `get_transferred_data` returns the body instead
of raising, because the code only rejects statuses of 400 and above. -/
theorem get_transferred_data_non200_returns :
    get_transferred_data ⟨204, some (.obj [("bytesTransferredByUserId", .obj [])])⟩ =
      .ok (.obj [("bytesTransferredByUserId", .obj [])]) ∧ (204 : Nat) ≠ 200 := by
  constructor
  · rfl
  · decide

/-- C8 (amended): with a body parsing as a JSON object,
`get_transferred_data` raises
`OutlineServerErrorException("Unable to get metrics")` exactly when the
status is 400 or above or the body lacks `bytesTransferredByUserId`, and
returns the raw parsed body (the mapping wrapper) whenever the status is
below 400 and the field is present. -/
theorem get_transferred_data_classification (r : Response) (kvs : List (String × Json))
    (hb : r.body = some (.obj kvs)) :
    (get_transferred_data r = .error (.serverError "Unable to get metrics") ↔
      (400 ≤ r.status ∨ kvs.lookup "bytesTransferredByUserId" = none)) ∧
    (¬ 400 ≤ r.status → (kvs.lookup "bytesTransferredByUserId").isSome = true →
      get_transferred_data r = .ok (.obj kvs)) := by
  have hj : jsonE r = .ok (.obj kvs) := by simp [jsonE, hb]
  by_cases h4 : 400 ≤ r.status
  · constructor
    · simp [get_transferred_data, h4]
    · intro h
      exact absurd h4 h
  · cases hl : kvs.lookup "bytesTransferredByUserId" with
    | none =>
      have hres : get_transferred_data r = .error (.serverError "Unable to get metrics") := by
        simp [get_transferred_data, h4, hj, bindE, pyContains, anyKey_eq_isSome, hl]
      constructor
      · rw [hres]
        exact iff_of_true rfl (Or.inr rfl)
      · intro _ hs
        simp at hs
    | some v =>
      have hres : get_transferred_data r = .ok (.obj kvs) := by
        simp [get_transferred_data, h4, hj, bindE, pyContains, anyKey_eq_isSome, hl]
      constructor
      · rw [hres]
        refine iff_of_false (fun hh => Except.noConfusion hh) fun h => ?_
        rcases h with h | h
        · exact h4 h
        · exact Option.noConfusion h
      · intro _ _
        exact hres

/-- C8 witness: a 500 response raises the metrics error; a 200 response
with the field present returns the raw body. -/
theorem get_transferred_data_classification_check :
    get_transferred_data ⟨500, some (.obj [])⟩ =
      .error (.serverError "Unable to get metrics") ∧
    get_transferred_data ⟨200, some (.obj [("bytesTransferredByUserId",
      .obj [("1", .num 5)])])⟩ =
      .ok (.obj [("bytesTransferredByUserId", .obj [("1", .num 5)])]) :=
  ⟨(get_transferred_data_classification ⟨500, some (.obj [])⟩ [] rfl).1.mpr
      (Or.inl (by decide)),
   (get_transferred_data_classification
      ⟨200, some (.obj [("bytesTransferredByUserId", .obj [("1", .num 5)])])⟩
      [("bytesTransferredByUserId", .obj [("1", .num 5)])] rfl).2 (by decide) rfl⟩

/-- C9 counterexample: a JSON-object body lacking `metricsEnabled` makes
`get_metrics_status` return a value — `None`, since `dict.get` defaults to
it — rather than propagate any failure. -/
theorem get_metrics_status_missing_field_returns_null :
    get_metrics_status ⟨200, some (.obj [])⟩ = .ok Json.null := rfl

/-- C9 (amended): `get_metrics_status` returns the `metricsEnabled` field
of the parsed body with no status check and no explicit error path; a body
that parses to an object lacking the field yields `null` (Python `None`)
rather than a failure, and only a body that does not parse as JSON
propagates a parse failure. -/
theorem get_metrics_status_behavior (r : Response) (kvs : List (String × Json)) :
    (r.body = some (.obj kvs) →
      get_metrics_status r = .ok ((kvs.lookup "metricsEnabled").getD .null)) ∧
    (r.body = none → get_metrics_status r = .error .jsonDecodeError) := by
  constructor
  · intro h
    simp [get_metrics_status, jsonE, h, bindE, dictGet]
  · intro h
    simp [get_metrics_status, jsonE, h, bindE]

/-- C9 witness: a body with the field returns its verbatim value; an
unparseable body propagates the parse failure. -/
theorem get_metrics_status_behavior_check :
    get_metrics_status ⟨200, some (.obj [("metricsEnabled", .bool true)])⟩ =
      .ok (.bool true) ∧
    get_metrics_status ⟨200, none⟩ = .error .jsonDecodeError := by
  constructor
  · have h := (get_metrics_status_behavior ⟨200, some (.obj [("metricsEnabled", .bool true)])⟩
      [("metricsEnabled", .bool true)]).1 rfl
    exact h
  · exact (get_metrics_status_behavior ⟨200, none⟩ []).2 rfl

theorem create_key_none_eq (r : Response) (kvs : List (String × Json)) (rn : Response)
    (h1 : r.status = 201) (h2 : r.body = some (.obj kvs)) :
    create_key r none rn = .ok ⟨(kvs.lookup "id").getD .null, (kvs.lookup "name").getD .null,
      (kvs.lookup "password").getD .null, (kvs.lookup "port").getD .null,
      (kvs.lookup "method").getD .null, (kvs.lookup "accessUrl").getD .null, Json.num 0⟩ := by
  have hb : (r.status == 201) = true := by simp [h1]
  simp [create_key, hb, jsonE, h2, bindE, dictGet]

/-- C10: the records constructed by create-key (no display name requested)
and by list-keys carry `id`, `name`, `password`, `port`, `method` and
`accessUrl` verbatim as the JSON values of the response body, with no
conversion or validation — in particular `key_id` is whatever JSON value
(of whatever type) the server sent, even though the Python dataclass
annotates it as `int`. -/
theorem access_key_fields_verbatim (r rn rk rm : Response)
    (kvs kkvs mkvs m ekvs : List (String × Json))
    (h1 : r.status = 201) (h2 : r.body = some (.obj kvs))
    (h3 : rk.status = 200) (h4 : rk.body = some (.obj kkvs))
    (h5 : kkvs.lookup "accessKeys" = some (.arr [.obj ekvs]))
    (h6 : rm.status < 400) (h7 : rm.body = some (.obj mkvs))
    (h8 : mkvs.lookup "bytesTransferredByUserId" = some (.obj m))
    (h9 : hashableJson ((ekvs.lookup "id").getD .null) = true) :
    create_key r none rn = .ok ⟨(kvs.lookup "id").getD .null, (kvs.lookup "name").getD .null,
      (kvs.lookup "password").getD .null, (kvs.lookup "port").getD .null,
      (kvs.lookup "method").getD .null, (kvs.lookup "accessUrl").getD .null, Json.num 0⟩ ∧
    get_keys rk rm = .ok [⟨(ekvs.lookup "id").getD .null, (ekvs.lookup "name").getD .null,
      (ekvs.lookup "password").getD .null, (ekvs.lookup "port").getD .null,
      (ekvs.lookup "method").getD .null, (ekvs.lookup "accessUrl").getD .null,
      lookupIdBytes m ((ekvs.lookup "id").getD .null)⟩] := by
  constructor
  · exact create_key_none_eq r kvs rn h1 h2
  · have hjk : jsonE rk = .ok (.obj kkvs) := by simp [jsonE, h4]
    have hjm : jsonE rm = .ok (.obj mkvs) := by simp [jsonE, h7]
    have hnot400 : ¬ 400 ≤ rm.status := by omega
    have hcond : (if rk.status == 200 then bindE (jsonE rk) fun j => pyContains j "accessKeys"
        else .ok false) = .ok true := by
      simp [h3, hjk, bindE, pyContains, anyKey_eq_isSome, h5]
    have hentries : ∀ e ∈ [Json.obj ekvs], entryOkB e = true := by
      intro e he
      simp at he
      subst he
      simpa [entryOkB] using h9
    rw [get_keys, hcond]
    simp [bindE, hnot400, hjm, pyContains, anyKey_eq_isSome, h8, hjk, dictGet, h5, asList,
      buildKeys_obj_ok mkvs m h8 [Json.obj ekvs] hentries, joinedKey]

/-- C10 witness: a string identifier `"7"` is stored verbatim in `key_id`
by both operations, with all other fields the verbatim body values. -/
theorem access_key_fields_verbatim_check :
    create_key ⟨201, some (.obj [("id", .str "7"), ("name", .str "n"),
      ("password", .str "pw"), ("port", .num 1), ("method", .str "m"),
      ("accessUrl", .str "u")])⟩ none ⟨0, none⟩ =
      .ok ⟨.str "7", .str "n", .str "pw", .num 1, .str "m", .str "u", .num 0⟩ ∧
    get_keys ⟨200, some (.obj [("accessKeys", .arr [.obj [("id", .str "7")]])])⟩
      ⟨200, some (.obj [("bytesTransferredByUserId", .obj [])])⟩ =
      .ok [⟨.str "7", .null, .null, .null, .null, .null, .null⟩] := by
  have h := access_key_fields_verbatim
    ⟨201, some (.obj [("id", .str "7"), ("name", .str "n"), ("password", .str "pw"),
      ("port", .num 1), ("method", .str "m"), ("accessUrl", .str "u")])⟩
    ⟨0, none⟩
    ⟨200, some (.obj [("accessKeys", .arr [.obj [("id", .str "7")]])])⟩
    ⟨200, some (.obj [("bytesTransferredByUserId", .obj [])])⟩
    [("id", .str "7"), ("name", .str "n"), ("password", .str "pw"), ("port", .num 1),
      ("method", .str "m"), ("accessUrl", .str "u")]
    [("accessKeys", .arr [.obj [("id", .str "7")]])]
    [("bytesTransferredByUserId", .obj [])]
    []
    [("id", .str "7")]
    rfl rfl rfl rfl rfl (by decide) rfl rfl (by decide)
  exact ⟨h.1, h.2⟩
